import Mathlib

/-!
Shallow embedding of the idle/override arbiter and brightness logic of the
`skill-ovos-gui` skill (`src/__init__.py`).

Monotonic time and wall-clock timestamps are modelled as rationals (`ℚ`),
Python `int(...)` truncation as an explicit operation on `ℚ`.  The message
bus is modelled by returning the list of messages an operation emits; the
named one-shot scheduler slot `"IdleCheck"` is an `Option` deadline.
-/

namespace OVOSGui

/-- Monotonic-clock seconds (`time.monotonic()`), modelled as rationals. -/
abbrev Time := ℚ

/-- Floor of a rational as an integer. -/
def ratFloor (q : ℚ) : ℤ := ⌊q⌋

/-- Python `int()` applied to a float/rational: truncation toward zero. -/
def pyTrunc (q : ℚ) : ℤ := if 0 ≤ q then ratFloor q else -ratFloor (-q)

/-- The value of the `__idle` field of a `gui.page.show` message:
absent, a Python `bool`, or a non-bool `int`. -/
inductive PyIdle where
  | none
  | bool (b : Bool)
  | int (n : ℤ)
  deriving DecidableEq, Repr

/-- A bus `Message`.  `mtype` is the message type, and the remaining fields
model the `data` dict entries the skill reads: `__from`, `page`,
`__animations` and `__idle` (absent entries are defaulted like
`data.get(...)` does). -/
structure Message where
  mtype : String
  mfrom : String
  page : List String
  animations : Bool
  idle : PyIdle
  deriving DecidableEq, Repr

/-- Embedding of `compare_origin` (src/__init__.py:41): compares the `__from` fields. -/
def compare_origin (m1 m2 : Message) : Bool := m1.mfrom == m2.mfrom

/-- State of a `RestingScreen` instance (src/__init__.py:56).
`screens` is the `name → id` registration dict (newest entry first),
`override_idle` the optional `(message, timestamp)` tuple, `next` the idle
deadline floor, `override_set_time` the stop-grace timestamp, and
`gui_selected` models the `"selected"` key of `self.gui`
(`Option.none` = key absent). -/
structure RSState where
  screens : List (String × String)
  override_idle : Option (Message × Time)
  next : Time
  override_set_time : Time
  gui_selected : Option String
  deriving DecidableEq, Repr

/-- Dict insertion with overwrite, as in `RestingScreen.on_register`
(src/__init__.py:79): `self.screens[name] = id`. -/
def dictInsert (k v : String) (m : List (String × String)) : List (String × String) :=
  (k, v) :: m.filter (fun p => p.1 != k)

/-- Embedding of `RestingScreen.on_register` (src/__init__.py:79): a well-formed
registration inserts/overwrites; a malformed one is dropped. -/
def RSState.on_register (s : RSState) (name id : Option String) : RSState :=
  match name, id with
  | some n, some i => { s with screens := dictInsert n i s.screens }
  | _, _ => s

/-- Embedding of `RestingScreen.show` (src/__init__.py:107).  Returns the unchanged state
and the list of emitted messages: with an override active it re-emits the
stored message; otherwise, with a nonempty registration dict and a
`"selected"` gui key, it looks up the selected screen id and, when found
and truthy, emits `"{id}.idle"`. -/
def RSState.show (s : RSState) : RSState × List Message :=
  let overrideEmit : List Message :=
    match s.override_idle with
    | some (m, _) => [m]
    | Option.none => []
  let screen : Option String :=
    match s.override_idle with
    | some _ => Option.none
    | Option.none =>
      if 0 < s.screens.length ∧ s.gui_selected.isSome then
        s.screens.lookup (s.gui_selected.getD "")
      else Option.none
  let idleEmit : List Message :=
    match screen with
    | some sc =>
      if sc = "" then [] else [⟨sc ++ ".idle", "", [], false, PyIdle.none⟩]
    | Option.none => []
  (s, overrideEmit ++ idleEmit)

/-- Embedding of `RestingScreen.restore` (src/__init__.py:124): clear the override and
show, but only when an override is active and `now - setAt > 2`. -/
def RSState.restore (s : RSState) (now : Time) : RSState × List Message :=
  match s.override_idle with
  | some (_, t) =>
    if 2 < now - t then RSState.show { s with override_idle := Option.none }
    else (s, [])
  | Option.none => (s, [])

/-- Embedding of `RestingScreen.stop` (src/__init__.py:130): restore only after the
7-second stop grace measured from `override_set_time`. -/
def RSState.stop (s : RSState) (now : Time) : RSState × List Message :=
  if s.override_set_time + 7 < now then s.restore now else (s, [])

/-- Embedding of `RestingScreen.force_stop` (src/__init__.py:134): unconditionally clear
the override and show. -/
def RSState.force_stop (s : RSState) : RSState × List Message :=
  RSState.show { s with override_idle := Option.none }

/-- Embedding of `RestingScreen.override` (src/__init__.py:138): always refresh
`override_set_time`; install the `(message, now)` tuple only when a
(truthy) message is given. -/
def RSState.override (s : RSState) (message : Option Message) (now : Time) : RSState :=
  let s1 := { s with override_set_time := now }
  match message with
  | some m => { s1 with override_idle := some (m, now) }
  | Option.none => s1

/-- Embedding of `RestingScreen.cancel_override` (src/__init__.py:150): clear the
override tuple (no show). -/
def RSState.cancel_override (s : RSState) : RSState :=
  { s with override_idle := Option.none }

/-- State of the `OVOSGuiControlSkill` pieces the claims touch: the resting
screen, the `"IdleCheck"` scheduler slot (absolute deadline when armed),
and the `has_show_page` / `override_animations` flags. -/
structure SkillState where
  rs : RSState
  idleCheck : Option Time
  has_show_page : Bool
  override_animations : Bool
  deriving DecidableEq, Repr

/-- Embedding of `OVOSGuiControlSkill.cancel_idle_event` (src/__init__.py:467):
zero the floor and cancel the `"IdleCheck"` timer. -/
def cancel_idle_event (s : SkillState) : SkillState :=
  { s with rs := { s.rs with next := 0 }, idleCheck := Option.none }

/-- Embedding of `OVOSGuiControlSkill.start_idle_event` (src/__init__.py:472):
abandon when `now + offset < next`; otherwise (unless `weak`) set
`next := now + offset`, cancel any `"IdleCheck"` timer and arm a new one
`int(offset)` seconds out. -/
def start_idle_event (s : SkillState) (now : Time) (offset : ℚ) (weak : Bool) : SkillState :=
  if now + offset < s.rs.next then s
  else
    let rs := if weak then s.rs else { s.rs with next := now + offset }
    { s with rs := rs, idleCheck := some (now + (pyTrunc offset : ℚ)) }

/-- Test whether the first list is a prefix of the second (character lists). -/
def charsStartsWith : List Char → List Char → Bool
  | [], _ => true
  | _ :: _, [] => false
  | p :: ps, c :: cs => p = c && charsStartsWith ps cs

/-- Test whether `pat` occurs as a contiguous substring of the second list. -/
def charsContains (pat : List Char) : List Char → Bool
  | [] => charsStartsWith pat []
  | c :: rest => charsStartsWith pat (c :: rest) || charsContains pat rest

/-- Python `pat in s` on strings: contiguous substring test. -/
def pyInStr (pat s : String) : Bool := charsContains pat.data s.data

/-- Embedding of `OVOSGuiControlSkill.on_gui_page_show` (src/__init__.py:368), restricted
to its effect on the modelled state.  The handler ignores messages whose
`__from` contains `"skill-ovos-mycroftgui"`; otherwise it sets
`has_show_page`, copies `__animations`, and dispatches on `__idle`:
`True` cancels the idle event and installs an override; a non-bool `int n`
calls `override(None)` then `start_idle_event(n)`; otherwise, when the
first page is not an `idle.qml` page, it cancels a same-origin override
if `__idle is False` and starts the default 30-second idle event. -/
def on_gui_page_show (s : SkillState) (now : Time) (message : Message) : SkillState :=
  if pyInStr "skill-ovos-mycroftgui" message.mfrom then s
  else
    let s1 := { s with has_show_page := true, override_animations := message.animations }
    match message.idle with
    | PyIdle.bool true =>
      let s2 := cancel_idle_event s1
      { s2 with rs := s2.rs.override (some message) now }
    | PyIdle.int n =>
      let s2 := { s1 with rs := s1.rs.override Option.none now }
      start_idle_event s2 now (n : ℚ) false
    | _ =>
      if message.page ≠ [] ∧ ¬ (message.page.headD "").endsWith "idle.qml" then
        let s2 :=
          match s1.rs.override_idle with
          | some (om, _) =>
            if message.idle = PyIdle.bool false ∧ compare_origin message om then
              { s1 with rs := s1.rs.cancel_override }
            else s1
          | Option.none => s1
        start_idle_event s2 now 30 false
      else s1

/-- Embedding of `OVOSGuiControlSkill.percent_to_level` (src/__init__.py:527):
`int(float(percent) / float(100) * 30)` — truncation, not rounding. -/
def percent_to_level (percent : ℚ) : ℤ := pyTrunc (percent / 100 * 30)

/-- The level-to-percent conversion inside
`OVOSGuiControlSkill.set_screen_brightness` (src/__init__.py:584):
`percent = int(float(level) * float(100) / float(30))`. -/
def set_screen_brightness_percent (level : ℚ) : ℤ := pyTrunc (level * 100 / 30)

/-- Modelled from the spec: the spec's `round(x)` numeric mapping
(`level = round(percent/100 * 30)` and its inverse), i.e. rounding to the
nearest integer.  Written as `⌊x + 1/2⌋`, which agrees with Python's
`round` at every non-half-integer argument (the only points used here). -/
def spec_round (q : ℚ) : ℤ := ratFloor (q + 1 / 2)

/-- Python whitespace test used by `str.strip()` (space, tab, newline,
carriage return, form feed, vertical tab). -/
def isPySpace (c : Char) : Bool :=
  c = ' ' || c = '\t' || c = '\n' || c = '\r' || c = '\x0c' || c = '\x0b'

/-- Python `str.strip()`: drop leading and trailing whitespace. -/
def pyStrip (s : String) : String :=
  ⟨((s.data.dropWhile isPySpace).reverse.dropWhile isPySpace).reverse⟩

/-- Replace every (leftmost, non-overlapping) occurrence of `pat` by `rep`,
fuel-bounded by the input length. -/
def charsReplaceAux (pat rep : List Char) : ℕ → List Char → List Char
  | 0, s => s
  | Nat.succ fuel, s =>
    match s with
    | [] => []
    | c :: rest =>
      if pat ≠ [] ∧ charsStartsWith pat s then
        rep ++ charsReplaceAux pat rep fuel (s.drop pat.length)
      else c :: charsReplaceAux pat rep fuel rest

/-- Python `s.replace(pat, rep)` for nonempty `pat`. -/
def pyReplace (s pat rep : String) : String :=
  ⟨charsReplaceAux pat.data rep.data s.data.length s.data⟩

/-- Digit-list to natural number accumulator. -/
def digitsToNat (l : List Char) : ℕ :=
  l.foldl (fun acc d => acc * 10 + (d.toNat - '0'.toNat)) 0

/-- Python `int(s)` on a string: strip whitespace, optional sign, then a
nonempty run of digits; any other shape raises (modelled as `none`). -/
def pyIntStr (s : String) : Option ℤ :=
  let cs := (pyStrip s).data
  match cs with
  | [] => Option.none
  | c :: rest =>
    let sd : ℤ × List Char :=
      if c = '-' then (-1, rest) else if c = '+' then (1, rest) else (1, cs)
    if sd.2 ≠ [] ∧ sd.2.all Char.isDigit then
      some (sd.1 * (digitsToNat sd.2 : ℤ))
    else Option.none

/-- Embedding of `OVOSGuiControlSkill.parse_brightness` (src/__init__.py:539).
`brightness_dict` models `self.brightness_dict` (from the locale file) and
`normalize` the external `mycroft.util.parse.normalize`; both are
parameters since they live outside this repository.  Any exception in the
`int()` conversions is caught and yields `None`. -/
def parse_brightness (brightness_dict : String → Option ℤ) (normalize : String → String)
    (brightness : String) : Option ℤ :=
  match brightness_dict (normalize brightness) with
  | some v => some v
  | Option.none =>
    if pyInStr "%" brightness then
      pyIntStr (pyStrip (pyReplace brightness "%" ""))
    else if pyInStr "percent" brightness then
      pyIntStr (pyStrip (pyReplace brightness "percent" ""))
    else
      match pyIntStr brightness with
      | Option.none => Option.none
      | some i =>
        if i < 0 ∨ 100 < i then Option.none
        else if i < 30 then some (pyTrunc ((i : ℚ) * 100 / 30))
        else some i

/-- Embedding of `OVOSGuiControlSkill.schedule_brightness` (src/__init__.py:659), at the
level of integer wall-clock timestamps (`arrow` `.timestamp`): the armed
fire time is the computed time shifted by 24 hours when it is already in
the past, and the computed time itself otherwise. -/
def schedule_brightness (now_ts dtime_ts : ℤ) : ℤ :=
  if dtime_ts < now_ts then dtime_ts + 24 * 3600 else dtime_ts

/-! Helper lemmas shared by several proofs. -/

/-- The function `show` never mutates the arbiter state. -/
theorem show_fst (s : RSState) : (RSState.show s).1 = s := rfl

/-- With an override installed, `show` emits exactly the stored message. -/
theorem show_of_override (s : RSState) (m : Message) (t : Time)
    (h : s.override_idle = some (m, t)) :
    RSState.show s = (s, [m]) := by
  simp [RSState.show, h]

/-- The debounce early-return of `start_idle_event`. -/
theorem start_idle_event_abandon (s : SkillState) (now offset : Time) (weak : Bool)
    (h : now + offset < s.rs.next) : start_idle_event s now offset weak = s := by
  rw [start_idle_event, if_pos h]

/-- A committed (non-weak, non-abandoned) `start_idle_event` call. -/
theorem start_idle_event_commit (s : SkillState) (now offset : Time)
    (h : ¬ now + offset < s.rs.next) :
    start_idle_event s now offset false =
      { s with rs := { s.rs with next := now + offset },
               idleCheck := some (now + (pyTrunc offset : ℚ)) } := by
  rw [start_idle_event, if_neg h]
  rfl

/-- Value of `pyTrunc` on a nonnegative integer fraction: integer division. -/
theorem pyTrunc_div_natCast (n : ℤ) (d : ℕ) (hn : 0 ≤ n) :
    pyTrunc ((n : ℚ) / (d : ℚ)) = n / (d : ℤ) := by
  have h : (0:ℚ) ≤ (n : ℚ) / (d : ℚ) := by positivity
  rw [pyTrunc, if_pos h, ratFloor, Rat.floor_intCast_div_natCast]

/-- Evaluation of `percent_to_level` at an integer percentage. -/
theorem percent_to_level_natCast (p : ℕ) :
    percent_to_level (p : ℚ) = 30 * (p:ℤ) / 100 := by
  have h : ((p:ℚ) / 100 * 30) = ((30 * (p:ℤ) : ℤ) : ℚ) / ((100:ℕ) : ℚ) := by
    push_cast; ring
  rw [percent_to_level, h, pyTrunc_div_natCast _ _ (by positivity)]
  norm_num

/-- Evaluation of the `level * 100 / 30` truncation at a nonnegative
integer level. -/
theorem pyTrunc_level_percent (L : ℤ) (hL : 0 ≤ L) :
    pyTrunc ((L:ℚ) * 100 / 30) = 100 * L / 30 := by
  have h : ((L:ℚ) * 100 / 30) = ((100 * L : ℤ) : ℚ) / ((30:ℕ) : ℚ) := by
    push_cast; ring
  rw [h, pyTrunc_div_natCast _ _ (by positivity)]
  norm_num

/-- Evaluation of `set_screen_brightness_percent` at a nonnegative integer
level. -/
theorem set_screen_brightness_percent_intCast (L : ℤ) (hL : 0 ≤ L) :
    set_screen_brightness_percent (L : ℚ) = 100 * L / 30 := by
  rw [set_screen_brightness_percent, pyTrunc_level_percent L hL]

/-! The claims. -/

/-- C1: with an override active (`override_idle = some (m, t)`), `show()`
re-emits exactly the stored original message `m`, emits nothing else (in
particular no `{id}.idle` idle-activation), and leaves the whole state —
override included — unchanged, whatever the registration map and selected
idle screen are. -/
theorem show_override_precedence (s : RSState) (m : Message) (t : Time)
    (h : s.override_idle = some (m, t)) :
    RSState.show s = (s, [m]) :=
  show_of_override s m t h

def c1_msg : Message :=
  ⟨"gui.page.show", "skill-weather", ["weather/main.qml"], false, PyIdle.bool true⟩

def c1_state : RSState :=
  ⟨[("Weather", "weather-skill")], some (c1_msg, 0), 0, 0, some "Weather"⟩

/-- Witness for C1 at a state with a registered and selected idle screen. -/
theorem show_override_precedence_witness :
    RSState.show c1_state = (c1_state, [c1_msg]) :=
  show_override_precedence c1_state c1_msg 0 rfl

/-- C2: a `start_idle_event` call with `now + offset < next` is abandoned
entirely (state, floor and `"IdleCheck"` timer all unchanged); and
`start_idle_event(60)` followed by `start_idle_event(5)` within the same
window leaves the deadline at `now + 60`. -/
theorem start_idle_event_debounce :
    (∀ (s : SkillState) (now offset : Time) (weak : Bool),
        now + offset < s.rs.next → start_idle_event s now offset weak = s) ∧
    (∀ (s0 : SkillState) (now now2 : Time),
        s0.rs.next ≤ now + 60 → now2 + 5 < now + 60 →
        start_idle_event (start_idle_event s0 now 60 false) now2 5 false
            = start_idle_event s0 now 60 false ∧
        (start_idle_event s0 now 60 false).rs.next = now + 60) := by
  refine ⟨start_idle_event_abandon, ?_⟩
  intro s0 now now2 h1 h2
  have e1 := start_idle_event_commit s0 now 60 (not_lt.mpr h1)
  have e2 : (start_idle_event s0 now 60 false).rs.next = now + 60 := by rw [e1]
  refine ⟨start_idle_event_abandon _ now2 5 false ?_, e2⟩
  rw [e2]
  exact h2

def c2_state : SkillState := ⟨⟨[], Option.none, 100, 0, Option.none⟩, some 100, false, false⟩

def c2_state0 : SkillState := ⟨⟨[], Option.none, 0, 0, Option.none⟩, Option.none, false, false⟩

/-- Witness for C2: a concrete abandoned call and the 60-then-5 scenario. -/
theorem start_idle_event_debounce_witness :
    start_idle_event c2_state 0 5 false = c2_state ∧
    (start_idle_event (start_idle_event c2_state0 0 60 false) 0 5 false
        = start_idle_event c2_state0 0 60 false ∧
     (start_idle_event c2_state0 0 60 false).rs.next = 0 + 60) :=
  ⟨start_idle_event_debounce.1 c2_state 0 5 false (by norm_num [c2_state]),
   start_idle_event_debounce.2 c2_state0 0 0 (by norm_num [c2_state0]) (by norm_num)⟩

/-- C4: with an override installed at `setAt = t`, `restore(now)` clears
the override and immediately invokes `show()` exactly when `now - t > 2`;
at `now - t ≤ 2` (e.g. `t + 1.9`) it is a no-op leaving the override
intact, and at `now - t > 2` (e.g. `t + 2.1`) it clears and shows. -/
theorem restore_grace_period (s : RSState) (m : Message) (t now : Time)
    (h : s.override_idle = some (m, t)) :
    (2 < now - t →
        RSState.restore s now = RSState.show { s with override_idle := Option.none } ∧
        (RSState.restore s now).1.override_idle = Option.none) ∧
    (now - t ≤ 2 → RSState.restore s now = (s, [])) := by
  constructor
  · intro hgt
    have e : RSState.restore s now = RSState.show { s with override_idle := Option.none } := by
      simp [RSState.restore, h, hgt]
    refine ⟨e, ?_⟩
    rw [e, show_fst]
  · intro hle
    simp [RSState.restore, h, not_lt.mpr hle]

def c4_msg : Message :=
  ⟨"gui.page.show", "skill-clock", ["clock/main.qml"], false, PyIdle.bool true⟩

def c4_state : RSState := ⟨[], some (c4_msg, 0), 0, 0, Option.none⟩

/-- Witness for C4 at `setAt = 0`: `restore(1.9)` is a no-op and
`restore(2.1)` clears the override and shows. -/
theorem restore_grace_period_witness :
    RSState.restore c4_state (19/10) = (c4_state, []) ∧
    (RSState.restore c4_state (21/10)
        = RSState.show { c4_state with override_idle := Option.none } ∧
     (RSState.restore c4_state (21/10)).1.override_idle = Option.none) :=
  ⟨(restore_grace_period c4_state c4_msg 0 (19/10) rfl).2 (by norm_num),
   (restore_grace_period c4_state c4_msg 0 (21/10) rfl).1 (by norm_num)⟩

/-- C5: `force_stop` — the operation bound to the explicit
`"system.display.homescreen"` ("show homescreen now") event — clears the
override unconditionally (no grace-period check, for every state) and
immediately re-invokes `show()` on the cleared state. -/
theorem force_stop_unconditional (s : RSState) :
    RSState.force_stop s = RSState.show { s with override_idle := Option.none } ∧
    (RSState.force_stop s).1.override_idle = Option.none := by
  refine ⟨rfl, ?_⟩
  rw [RSState.force_stop, show_fst]

/-- C7: `schedule_brightness` arms the timer at the computed time plus 24
hours when that time is in the past relative to now, and at the computed
time unchanged when it is in the future. -/
theorem schedule_brightness_past_future (now_ts dtime_ts : ℤ) :
    (dtime_ts < now_ts → schedule_brightness now_ts dtime_ts = dtime_ts + 24 * 3600) ∧
    (now_ts < dtime_ts → schedule_brightness now_ts dtime_ts = dtime_ts) := by
  constructor
  · intro h
    rw [schedule_brightness, if_pos h]
  · intro h
    rw [schedule_brightness, if_neg (by omega)]

/-- Witness for C7: a missed time is shifted by 86400 s, a future one is
kept. -/
theorem schedule_brightness_past_future_witness :
    schedule_brightness 5000 1000 = 1000 + 24 * 3600 ∧
    schedule_brightness 1000 5000 = 5000 :=
  ⟨(schedule_brightness_past_future 5000 1000).1 (by norm_num),
   (schedule_brightness_past_future 1000 5000).2 (by norm_num)⟩

/-- C9: `show()` is idempotent — it mutates no arbiter state (registration
map, stored override, selected idle screen and timer floor are all the
state fields, and the state is returned unchanged), so a second invocation
returns the identical state and emits the identical messages. -/
theorem show_idempotent (s : RSState) :
    (RSState.show s).1 = s ∧ RSState.show ((RSState.show s).1) = RSState.show s :=
  ⟨rfl, rfl⟩

def c3_event : Message :=
  ⟨"gui.page.show", "skill-weather", ["weather/main.qml"], false, PyIdle.int 15⟩

def c3_override_msg : Message :=
  ⟨"gui.page.show", "skill-clock", ["clock/main.qml"], false, PyIdle.bool true⟩

def c3_state : SkillState :=
  ⟨⟨[], some (c3_override_msg, 0), 100, 0, Option.none⟩, some 100, false, false⟩

/-- C3 counterexample: at `now = 0`, with an override installed and floor
`next = 100`, a foreign `gui.page.show` with `__idle = 15` leaves the
override installed (because `override(None)` does not clear it) and leaves
the deadline at `100`, not `now + 15` (the request is debounced away). -/
theorem on_gui_page_show_int_counterexample :
    (on_gui_page_show c3_state 0 c3_event).rs.override_idle = some (c3_override_msg, 0) ∧
    (on_gui_page_show c3_state 0 c3_event).rs.next = 100 ∧
    ¬ (on_gui_page_show c3_state 0 c3_event).rs.next = 0 + (15:ℚ) := by
  have hfrom : pyInStr "skill-ovos-mycroftgui" "skill-weather" = false := by decide
  refine ⟨?_, ?_, ?_⟩ <;>
    norm_num [on_gui_page_show, c3_event, c3_state, c3_override_msg, hfrom,
      RSState.override, start_idle_event]

/-- C3 (amended): a foreign `gui.page.show` carrying `__idle = N` (a
non-bool integer) installs no new override and leaves the stored override
tuple exactly as it was — `override(None)` refreshes only the stop-grace
timestamp — and then requests an idle timer of `N` seconds: when
`now + N` is not below the stored floor the deadline becomes `now + N`
and the `"IdleCheck"` timer is re-armed; when `now + N` is below the
floor the request is abandoned and floor and timer are unchanged. -/
theorem on_gui_page_show_int_idle (s : SkillState) (now : Time) (m : Message) (n : ℤ)
    (hfrom : pyInStr "skill-ovos-mycroftgui" m.mfrom = false)
    (hidle : m.idle = PyIdle.int n) :
    (on_gui_page_show s now m).rs.override_idle = s.rs.override_idle ∧
    (on_gui_page_show s now m).rs.override_set_time = now ∧
    (¬ now + (n:ℚ) < s.rs.next →
        (on_gui_page_show s now m).rs.next = now + (n:ℚ) ∧
        (on_gui_page_show s now m).idleCheck = some (now + (pyTrunc ((n:ℤ):ℚ) : ℚ))) ∧
    (now + (n:ℚ) < s.rs.next →
        (on_gui_page_show s now m).rs.next = s.rs.next ∧
        (on_gui_page_show s now m).idleCheck = s.idleCheck) := by
  have e : on_gui_page_show s now m =
      start_idle_event
        { s with has_show_page := true, override_animations := m.animations,
                 rs := { s.rs with override_set_time := now } }
        now ((n:ℤ):ℚ) false := by
    simp [on_gui_page_show, hfrom, hidle, RSState.override]
  rw [e]
  by_cases hc : now + (n:ℚ) < s.rs.next
  · simp [start_idle_event, hc]
  · simp [start_idle_event, hc]

def c3w_state : SkillState :=
  ⟨⟨[], some (c3_override_msg, 0), 0, 0, Option.none⟩, Option.none, false, false⟩

/-- Witness for the amended C3 at a state whose floor permits the update:
the override tuple survives and the deadline becomes `now + 15`. -/
theorem on_gui_page_show_int_idle_witness :
    (on_gui_page_show c3w_state 0 c3_event).rs.override_idle = some (c3_override_msg, 0) ∧
    (on_gui_page_show c3w_state 0 c3_event).rs.override_set_time = 0 ∧
    ((on_gui_page_show c3w_state 0 c3_event).rs.next = 0 + ((15:ℤ):ℚ) ∧
     (on_gui_page_show c3w_state 0 c3_event).idleCheck
        = some (0 + (pyTrunc ((15:ℤ):ℚ) : ℚ))) :=
  have h := on_gui_page_show_int_idle c3w_state 0 c3_event 15 (by decide) rfl
  ⟨h.1, h.2.1, h.2.2.1 (by norm_num [c3w_state])⟩

/-- C6 counterexample: the conversions are truncations, not roundings —
`percent_to_level 99 = 29` while `round(99/100*30) = 30`, and
`int(29*100/30) = 96` while `round(29*100/30) = 97` — and the round trip
at `p = 99` loses 3 percentage points, outside the claimed tolerance 1. -/
theorem brightness_round_counterexample :
    percent_to_level 99 ≠ spec_round ((99:ℚ) / 100 * 30) ∧
    set_screen_brightness_percent 29 ≠ spec_round ((29:ℚ) * 100 / 30) ∧
    (99:ℤ) - set_screen_brightness_percent ((percent_to_level 99 : ℤ) : ℚ) = 3 := by
  have h99 : percent_to_level 99 = 29 := by
    have h : ((99:ℚ)) = ((99:ℕ) : ℚ) := by norm_num
    rw [h, percent_to_level_natCast]
    decide
  have hsr : spec_round ((99:ℚ) / 100 * 30) = 30 := by
    have h : ((99:ℚ) / 100 * 30 + 1 / 2) = ((302:ℤ) : ℚ) / ((10:ℕ) : ℚ) := by
      push_cast
      norm_num
    simp only [spec_round, ratFloor]
    rw [h, Rat.floor_intCast_div_natCast]
    decide
  have h29 : set_screen_brightness_percent ((29:ℚ)) = 96 := by
    have h : ((29:ℚ)) = (((29:ℤ)) : ℚ) := by norm_num
    rw [h, set_screen_brightness_percent_intCast 29 (by norm_num)]
    decide
  have hsr2 : spec_round ((29:ℚ) * 100 / 30) = 97 := by
    have h : ((29:ℚ) * 100 / 30 + 1 / 2) = ((583:ℤ) : ℚ) / ((6:ℕ) : ℚ) := by
      push_cast
      norm_num
    simp only [spec_round, ratFloor]
    rw [h, Rat.floor_intCast_div_natCast]
    decide
  refine ⟨?_, ?_, ?_⟩
  · rw [h99, hsr]
    decide
  · rw [h29, hsr2]
    decide
  · rw [h99]
    have h : (((29:ℤ)) : ℚ) = ((29:ℚ)) := by norm_num
    rw [h, h29]
    decide

/-- C6 (amended): `percent_to_level` is the truncation `⌊p·30/100⌋` and
the level-to-percent conversion the truncation `⌊l·100/30⌋`; the round
trip percent → level → percent recovers every integer `p ∈ [0,100]`
within a tolerance of 3 (and never overshoots). -/
theorem brightness_trunc_roundtrip :
    (∀ p : ℕ, p < 101 → percent_to_level (p:ℚ) = ((p * 30 / 100 : ℕ) : ℤ)) ∧
    (∀ l : ℕ, l < 31 → set_screen_brightness_percent (l:ℚ) = ((l * 100 / 30 : ℕ) : ℤ)) ∧
    (∀ p : ℕ, p < 101 →
        0 ≤ (p:ℤ) - set_screen_brightness_percent ((percent_to_level (p:ℚ) : ℤ) : ℚ) ∧
        (p:ℤ) - set_screen_brightness_percent ((percent_to_level (p:ℚ) : ℤ) : ℚ) ≤ 3) := by
  refine ⟨?_, ?_, ?_⟩
  · intro p hp
    rw [percent_to_level_natCast]
    omega
  · intro l hl
    rw [← Int.cast_natCast, set_screen_brightness_percent_intCast _ (by positivity)]
    omega
  · intro p hp
    have hL0 : 0 ≤ percent_to_level (p:ℚ) := by
      rw [percent_to_level_natCast]
      omega
    rw [set_screen_brightness_percent_intCast _ hL0, percent_to_level_natCast]
    omega

/-- Witness for the amended C6 at `p = 99` and `l = 29`. -/
theorem brightness_trunc_roundtrip_witness :
    percent_to_level ((99:ℕ):ℚ) = ((99 * 30 / 100 : ℕ) : ℤ) ∧
    set_screen_brightness_percent ((29:ℕ):ℚ) = ((29 * 100 / 30 : ℕ) : ℤ) ∧
    (0 ≤ ((99:ℕ):ℤ) - set_screen_brightness_percent ((percent_to_level (((99:ℕ)):ℚ) : ℤ) : ℚ) ∧
     ((99:ℕ):ℤ) - set_screen_brightness_percent ((percent_to_level (((99:ℕ)):ℚ) : ℤ) : ℚ) ≤ 3) :=
  ⟨brightness_trunc_roundtrip.1 99 (by norm_num),
   brightness_trunc_roundtrip.2.1 29 (by norm_num),
   brightness_trunc_roundtrip.2.2 99 (by norm_num)⟩

/-- C8: on a bare-integer input (no `%`, no `"percent"`, not a named
level), `parse_brightness` returns `None` outside `[0,100]`, the
integer-converted `i·100/30` for a raw level `0 ≤ i < 30`, and `i` itself
for a percentage `30 ≤ i ≤ 100`; an input that fails integer conversion
yields `None` instead of raising. -/
theorem parse_brightness_bare_int (dict : String → Option ℤ) (normalize : String → String)
    (b : String)
    (hdict : dict (normalize b) = Option.none)
    (hpct : pyInStr "%" b = false)
    (hword : pyInStr "percent" b = false) :
    (∀ i : ℤ, pyIntStr b = some i →
        ((i < 0 ∨ 100 < i) → parse_brightness dict normalize b = Option.none) ∧
        ((0 ≤ i ∧ i < 30) → parse_brightness dict normalize b = some (100 * i / 30)) ∧
        ((30 ≤ i ∧ i ≤ 100) → parse_brightness dict normalize b = some i)) ∧
    (pyIntStr b = Option.none → parse_brightness dict normalize b = Option.none) := by
  have e : parse_brightness dict normalize b =
      (match pyIntStr b with
       | Option.none => Option.none
       | some i =>
         if i < 0 ∨ 100 < i then Option.none
         else if i < 30 then some (pyTrunc ((i:ℚ) * 100 / 30))
         else some i) := by
    simp [parse_brightness, hdict, hpct, hword]
  constructor
  · intro i hi
    have e2 : parse_brightness dict normalize b =
        (if i < 0 ∨ 100 < i then Option.none
         else if i < 30 then some (pyTrunc ((i:ℚ) * 100 / 30))
         else some i) := by
      rw [e, hi]
    refine ⟨?_, ?_, ?_⟩
    · intro hrange
      rw [e2, if_pos hrange]
    · rintro ⟨h0, h30⟩
      rw [e2, if_neg (by omega), if_pos h30, pyTrunc_level_percent i h0]
    · rintro ⟨h30, h100⟩
      rw [e2, if_neg (by omega), if_neg (by omega)]
  · intro hn
    rw [e, hn]

/-- Witness for C8 on the bare inputs `"15"`, `"50"`, `"120"` and the
non-numeric `"abc"`, with an empty named-level table. -/
theorem parse_brightness_bare_int_witness :
    parse_brightness (fun _ => Option.none) id "15" = some 50 ∧
    parse_brightness (fun _ => Option.none) id "50" = some 50 ∧
    parse_brightness (fun _ => Option.none) id "120" = Option.none ∧
    parse_brightness (fun _ => Option.none) id "abc" = Option.none := by
  have h15 := (parse_brightness_bare_int (fun _ => Option.none) id "15" rfl
      (by decide) (by decide)).1 15 (by decide)
  have h50 := (parse_brightness_bare_int (fun _ => Option.none) id "50" rfl
      (by decide) (by decide)).1 50 (by decide)
  have h120 := (parse_brightness_bare_int (fun _ => Option.none) id "120" rfl
      (by decide) (by decide)).1 120 (by decide)
  have habc := (parse_brightness_bare_int (fun _ => Option.none) id "abc" rfl
      (by decide) (by decide)).2 (by decide)
  exact ⟨(h15.2.1 (by norm_num)).trans (by norm_num),
         h50.2.2 (by norm_num), h120.1 (by norm_num), habc⟩

/-- C10: `override(None)` refreshes only `override_set_time` and leaves
every other field — including the stored `override_idle` tuple — exactly
as it was: an active override stays active, `show()` still re-emits it,
and the 2-second `restore` grace window keeps being measured from the
tuple's own install timestamp `t`, not from the refresh time. -/
theorem override_none_refresh (s : RSState) (m : Message) (t now : Time)
    (h : s.override_idle = some (m, t)) :
    (RSState.override s Option.none now).override_idle = s.override_idle ∧
    (RSState.override s Option.none now).override_set_time = now ∧
    (RSState.override s Option.none now).screens = s.screens ∧
    (RSState.override s Option.none now).next = s.next ∧
    (RSState.override s Option.none now).gui_selected = s.gui_selected ∧
    RSState.show (RSState.override s Option.none now)
        = (RSState.override s Option.none now, [m]) ∧
    (∀ now2 : Time,
        ((RSState.restore (RSState.override s Option.none now) now2).1.override_idle
            = Option.none ↔ 2 < now2 - t)) := by
  have h2 : (RSState.override s Option.none now).override_idle = some (m, t) := h
  refine ⟨h2.trans h.symm, rfl, rfl, rfl, rfl, show_of_override _ m t h2, ?_⟩
  intro now2
  by_cases hc : 2 < now2 - t
  · have e : RSState.restore (RSState.override s Option.none now) now2
        = RSState.show { (RSState.override s Option.none now) with
                         override_idle := Option.none } := by
      simp [RSState.restore, h2, hc]
    rw [e, show_fst]
    simp [hc]
  · have e : RSState.restore (RSState.override s Option.none now) now2
        = (RSState.override s Option.none now, []) := by
      simp [RSState.restore, h2, hc]
    rw [e]
    simp [h2, hc]

def c10_msg : Message :=
  ⟨"gui.page.show", "skill-news", ["news/main.qml"], false, PyIdle.bool true⟩

def c10_state : RSState := ⟨[], some (c10_msg, 0), 0, 5, Option.none⟩

/-- Witness for C10: refreshing at `now = 9` leaves the tuple installed
with its original timestamp `0`, `show` still restores it, and `restore`
at `now2 = 3 > 0 + 2` clears it even though the refresh was later. -/
theorem override_none_refresh_witness :
    (RSState.override c10_state Option.none 9).override_idle = c10_state.override_idle ∧
    (RSState.override c10_state Option.none 9).override_set_time = 9 ∧
    RSState.show (RSState.override c10_state Option.none 9)
        = (RSState.override c10_state Option.none 9, [c10_msg]) ∧
    (RSState.restore (RSState.override c10_state Option.none 9) 3).1.override_idle
        = Option.none :=
  have h := override_none_refresh c10_state c10_msg 0 9 rfl
  ⟨h.1, h.2.1, h.2.2.2.2.2.1, (h.2.2.2.2.2.2 3).mpr (by norm_num)⟩

end OVOSGui
